import Mathlib

/-!
Solana TipJar: verification of the spec against the program.

Shallow embedding of `programs/solana-tipjar/src/{lib.rs, state.rs}`.

Modelling conventions:
* `Pubkey` is modelled as `Nat` (only equality of keys matters to the program).
* Machine integers are `Nat` with an explicit `% 2^w` wherever the Rust code
  can overflow (`u64` additions, `u32` counter increment, `u32` multiplication
  in pagination).  Rust release builds (the Solana BPF profile) wrap on
  overflow.
* Rust `String::len()` counts UTF-8 bytes, so string bounds use
  `String.utf8ByteSize`.
* The external atomic transfer primitive (`solana_program::program::invoke` of
  a system transfer) may fail for platform reasons; each call site takes a
  `transferOk : Bool` oracle and propagates a `ProgErr.transferError` on
  failure, exactly as `invoke(..)?` propagates the platform error.
* An instruction handler returns `Except ProgErr (TipJar × List Effect)`.
  The hosting platform rolls the whole transaction back on error, so the
  persisted state after a call is `persist`: the `ok` payload, or the pre-call
  record on `error`.  Effects collect both notification emissions (`emit!`)
  and invocations of the value-transfer primitive, in program order.
-/

/-- Enum `Visibility` from `state.rs`: whether a tip is public or anonymous. -/
inductive Visibility where
  | Public : Visibility
  | Anonymous : Visibility
deriving DecidableEq, Repr

/-- A single recorded tip (`Tip` in `state.rs`). -/
structure Tip where
  sender : Nat
  amount : Nat
  visibility : Visibility
  memo : String
  timestamp : Nat
deriving DecidableEq, Repr

/-- The on-chain `TipJar` account (`state.rs`). -/
structure TipJar where
  is_active : Bool
  is_private : Bool
  owner : Nat
  description : String
  category : String
  goal : Nat
  total_received : Nat
  tips_history : List Tip
  last_tip_index : Nat
  total_tips_count : Nat
  bump : Nat
deriving DecidableEq, Repr

/-- The modulus `2 ^ 64` of `u64` arithmetic. -/
def U64 : Nat := 2 ^ 64

/-- The modulus `2 ^ 32` of `u32` arithmetic. -/
def U32 : Nat := 2 ^ 32

namespace TipJar

/-- Constant `TipJar::MAX_TIPS_HISTORY_LEN` from `state.rs`: capacity of the ring buffer. -/
def MAX_TIP_HISTORY_LEN : Nat := 100

end TipJar

/-- The error enum of the program (`TipJarError` in `lib.rs`), restricted to the
variants the embedded instructions can actually raise. -/
inductive TipJarError where
  | InvalidAmount
  | InsufficientFunds
  | Unauthorized
  | WithdrawalLimitExceeded
  | MemoTooLong
  | RedundantStatusChange
  | InvalidGoal
  | DescriptionTooLong
  | CategoryTooLong
deriving DecidableEq, Repr

/-- Result errors of a handler: either a program error raised by a `require!`
macro, or a platform error propagated from the external transfer primitive. -/
inductive ProgErr where
  | jarError : TipJarError → ProgErr
  | transferError : ProgErr
deriving DecidableEq, Repr

/-- Externally observable side channel of one instruction: `emit!` events and
calls of the external value-transfer primitive, in program order. -/
inductive Effect where
  | tipRefunded (sender amount timestamp : Nat)
  | transferToJar (sender amount : Nat)
  | transferToOwner (amount : Nat)
  | tipSent (sender amount : Nat) (memo : String) (vis : Visibility)
  | goalReached (goal total_received : Nat)
  | statusChanged (is_active : Bool)
deriving DecidableEq, Repr

instance {ε α : Type} [DecidableEq ε] [DecidableEq α] : DecidableEq (Except ε α) :=
  fun x y =>
    match x, y with
    | .ok a, .ok b =>
        if h : a = b then .isTrue (by simp [h]) else .isFalse (by simp [h])
    | .ok _, .error _ => .isFalse (by simp)
    | .error _, .ok _ => .isFalse (by simp)
    | .error e, .error f =>
        if h : e = f then .isTrue (by simp [h]) else .isFalse (by simp [h])

/-- The all-zero account contents the Anchor `init` constraint produces before
`initialize_tipjar` assigns its fields. -/
def zeroJar : TipJar :=
  { is_active := false, is_private := false, owner := 0, description := ""
    category := "", goal := 0, total_received := 0, tips_history := []
    last_tip_index := 0, total_tips_count := 0, bump := 0 }

/-- Handler `initialize_tipjar` (`lib.rs` lines 16–35): validates the inputs and
assigns the fields it mentions; every other field keeps its zero-initialised
value. -/
def initialize_tipjar (user : Nat) (description category : String) (goal : Nat)
    (bump : Nat) : Except ProgErr TipJar :=
  if ¬ goal > 0 then .error (.jarError .InvalidGoal)
  else if ¬ description.utf8ByteSize ≤ 200 then .error (.jarError .DescriptionTooLong)
  else if ¬ category.utf8ByteSize ≤ 100 then .error (.jarError .CategoryTooLong)
  else .ok { zeroJar with
    description := description, category := category, goal := goal
    total_received := 0, is_active := true, owner := user, bump := bump }

/-- The ring-buffer insertion inside `send_tip` (`lib.rs` lines 74–81):
append while below capacity, otherwise overwrite at
`last_tip_index % MAX_TIP_HISTORY_LEN` and advance the cursor modulo the
capacity. -/
def record_tip (jar : TipJar) (t : Tip) : TipJar :=
  if jar.tips_history.length < TipJar.MAX_TIP_HISTORY_LEN then
    { jar with tips_history := jar.tips_history ++ [t] }
  else
    { jar with
      tips_history :=
        jar.tips_history.set (jar.last_tip_index % TipJar.MAX_TIP_HISTORY_LEN) t
      last_tip_index := (jar.last_tip_index + 1) % TipJar.MAX_TIP_HISTORY_LEN }

/-- Handler `send_tip` (`lib.rs` lines 38–123).  `timestamp` stands for
`Clock::get()?.unix_timestamp`, `transferOk` for the outcome of the external
transfer invocation. -/
def send_tip (jar : TipJar) (sender amount : Nat) (visibility : Visibility)
    (memo : String) (timestamp : Nat) (transferOk : Bool) :
    Except ProgErr (TipJar × List Effect) :=
  if ¬ amount > 0 then .error (.jarError .InvalidAmount)
  else if ¬ memo.utf8ByteSize ≤ 100 then .error (.jarError .MemoTooLong)
  else if ¬ jar.is_active then
    .ok (jar, [.tipRefunded sender amount timestamp])
  else if jar.is_private ∧ sender ≠ jar.owner then
    .error (.jarError .Unauthorized)
  else
    let new_tip : Tip :=
      { sender := sender, amount := amount, visibility := visibility
        memo := memo, timestamp := timestamp }
    let jar1 := record_tip jar new_tip
    let jar2 := { jar1 with total_tips_count := (jar1.total_tips_count + 1) % U32 }
    if ¬ transferOk then .error .transferError
    else
      let jar3 := { jar2 with total_received := (jar2.total_received + amount) % U64 }
      .ok (jar3,
        [.transferToJar sender amount, .tipSent sender amount memo visibility] ++
        (if jar3.total_received ≥ jar3.goal then
          [.goalReached jar3.goal jar3.total_received] else []))

/-- Helper `get_tip_history` (`lib.rs` lines 126–136).  `page * page_size` is a `u32`
multiplication, which wraps modulo `2^32` before the `as usize` cast; the end
bound is computed in `usize` and cannot wrap. -/
def get_tip_history (jar : TipJar) (page page_size : Nat) : List Tip :=
  let start := page * page_size % U32
  let stop := min (start + page_size) jar.tips_history.length
  if start ≥ jar.tips_history.length then []
  else ((jar.tips_history.drop start).take (stop - start))

/-- Handler `clear_tip_history` (`lib.rs` lines 158–172): owner-only; empties the
history and resets the cursor, leaving `total_tips_count` untouched. -/
def clear_tip_history (jar : TipJar) (caller : Nat) :
    Except ProgErr (TipJar × List Effect) :=
  if jar.owner ≠ caller then .error (.jarError .Unauthorized)
  else .ok ({ jar with tips_history := [], last_tip_index := 0 }, [])

/-- Handler `toggle_tipjar_status` (`lib.rs` lines 175–196): owner-only; computes
`new_status = !is_active`, rejects `is_active == new_status` as a
`RedundantStatusChange` (a check that can never fire), then stores the new
status. -/
def toggle_tipjar_status (jar : TipJar) (caller : Nat) :
    Except ProgErr (TipJar × List Effect) :=
  if jar.owner ≠ caller then .error (.jarError .Unauthorized)
  else
    let new_status := ! jar.is_active
    if ¬ jar.is_active ≠ new_status then .error (.jarError .RedundantStatusChange)
    else .ok ({ jar with is_active := new_status }, [.statusChanged new_status])

/-- Handler `update_tipjar` (`lib.rs` lines 199–214): owner-only; overwrites the
metadata with no re-validation. -/
def update_tipjar (jar : TipJar) (caller : Nat) (new_description new_category : String)
    (new_goal : Nat) : Except ProgErr (TipJar × List Effect) :=
  if jar.owner ≠ caller then .error (.jarError .Unauthorized)
  else .ok ({ jar with description := new_description, category := new_category
                       goal := new_goal }, [])

/-- Handler `withdraw_tip` (`lib.rs` lines 217–253): owner-only; requires
`total_received ≥ amount` and `amount ≤ 1000`, invokes the external transfer
from jar to owner, then decrements `total_received`. -/
def withdraw_tip (jar : TipJar) (caller amount : Nat) (transferOk : Bool) :
    Except ProgErr (TipJar × List Effect) :=
  if jar.owner ≠ caller then .error (.jarError .Unauthorized)
  else if ¬ jar.total_received ≥ amount then .error (.jarError .InsufficientFunds)
  else
    let withdraw_limit := 1000
    if ¬ amount ≤ withdraw_limit then .error (.jarError .WithdrawalLimitExceeded)
    else if ¬ transferOk then .error .transferError
    else .ok ({ jar with total_received := jar.total_received - amount },
              [.transferToOwner amount])

/-- Handler `pause_tipjar` (`lib.rs` lines 256–269): owner-only, unconditionally sets
`is_active := false`. -/
def pause_tipjar (jar : TipJar) (caller : Nat) :
    Except ProgErr (TipJar × List Effect) :=
  if jar.owner ≠ caller then .error (.jarError .Unauthorized)
  else .ok ({ jar with is_active := false }, [])

/-- Handler `resume_tipjar` (`lib.rs` lines 272–285): owner-only, unconditionally sets
`is_active := true`. -/
def resume_tipjar (jar : TipJar) (caller : Nat) :
    Except ProgErr (TipJar × List Effect) :=
  if jar.owner ≠ caller then .error (.jarError .Unauthorized)
  else .ok ({ jar with is_active := true }, [])

/-- The transaction semantics of the hosting platform: an instruction that returns
an error persists nothing, so the stored record after the call is the `ok`
payload on success and the pre-call record on failure. -/
def persist (jar : TipJar) (r : Except ProgErr (TipJar × List Effect)) : TipJar :=
  match r with
  | .ok (jar2, _) => jar2
  | .error _ => jar

/-- One instruction of a post-initialisation trace, with its caller and the
outcome oracle of any external transfer it performs.  `close_tipjar` is
excluded: it destroys the account, so it can only end a trace. -/
inductive Op where
  | sendTip (sender amount : Nat) (vis : Visibility) (memo : String)
      (timestamp : Nat) (transferOk : Bool)
  | withdraw (caller amount : Nat) (transferOk : Bool)
  | clearHistory (caller : Nat)
  | toggleStatus (caller : Nat)
  | doPause (caller : Nat)
  | doResume (caller : Nat)
  | doUpdate (caller : Nat) (description category : String) (goal : Nat)
deriving DecidableEq, Repr

/-- Runs one instruction against the stored record, under the roll-back-on-error semantics. -/
def stepOp (jar : TipJar) (op : Op) : TipJar :=
  match op with
  | .sendTip s a v m ts tOk => persist jar (send_tip jar s a v m ts tOk)
  | .withdraw c a tOk => persist jar (withdraw_tip jar c a tOk)
  | .clearHistory c => persist jar (clear_tip_history jar c)
  | .toggleStatus c => persist jar (toggle_tipjar_status jar c)
  | .doPause c => persist jar (pause_tipjar jar c)
  | .doResume c => persist jar (resume_tipjar jar c)
  | .doUpdate c d cat g => persist jar (update_tipjar jar c d cat g)

/-- Runs a whole trace of instructions. -/
def runOps (jar : TipJar) : List Op → TipJar
  | [] => jar
  | op :: rest => runOps (stepOp jar op) rest

/-- The amount of the tip the instruction accepted, if it is one: a `send_tip`
that returns success against an active jar has passed validation, the privacy
gate and the transfer, and has been credited. -/
def opAccepted (jar : TipJar) (op : Op) : List Nat :=
  match op with
  | .sendTip s a v m ts tOk =>
      match send_tip jar s a v m ts tOk with
      | .ok _ => if jar.is_active then [a] else []
      | .error _ => []
  | _ => []

/-- The amount the instruction withdrew, if it is a successful withdrawal. -/
def opWithdrawn (jar : TipJar) (op : Op) : List Nat :=
  match op with
  | .withdraw c a tOk =>
      match withdraw_tip jar c a tOk with
      | .ok _ => [a]
      | .error _ => []
  | _ => []

/-- The amounts of all tips a trace accepts, in order. -/
def acceptedList (jar : TipJar) : List Op → List Nat
  | [] => []
  | op :: rest => opAccepted jar op ++ acceptedList (stepOp jar op) rest

/-- The amounts of all withdrawals a trace completes, in order. -/
def withdrawnList (jar : TipJar) : List Op → List Nat
  | [] => []
  | op :: rest => opWithdrawn jar op ++ withdrawnList (stepOp jar op) rest

/-- Folding the ring-buffer insertion over a list of tips. -/
def recordAll (jar : TipJar) (ts : List Tip) : TipJar :=
  ts.foldl record_tip jar

/-- Modelled from the words of the spec (§4.1) as the refinement target for
`get_tip_history`: the slice `[page*page_size, min(page*page_size+page_size,
len))` of the history, empty when the start offset is at or beyond the current
length, with the start offset computed as an exact (non-wrapping) product. -/
def get_tip_history_spec (jar : TipJar) (page page_size : Nat) : List Tip :=
  let start := page * page_size
  let stop := min (start + page_size) jar.tips_history.length
  if start ≥ jar.tips_history.length then []
  else ((jar.tips_history.drop start).take (stop - start))

/-! ## Frame lemmas for the ring-buffer insertion -/

theorem record_tip_is_active (jar : TipJar) (t : Tip) :
    (record_tip jar t).is_active = jar.is_active := by
  unfold record_tip; split <;> rfl

theorem record_tip_is_private (jar : TipJar) (t : Tip) :
    (record_tip jar t).is_private = jar.is_private := by
  unfold record_tip; split <;> rfl

theorem record_tip_owner (jar : TipJar) (t : Tip) :
    (record_tip jar t).owner = jar.owner := by
  unfold record_tip; split <;> rfl

theorem record_tip_goal (jar : TipJar) (t : Tip) :
    (record_tip jar t).goal = jar.goal := by
  unfold record_tip; split <;> rfl

theorem record_tip_total_received (jar : TipJar) (t : Tip) :
    (record_tip jar t).total_received = jar.total_received := by
  unfold record_tip; split <;> rfl

theorem record_tip_total_tips_count (jar : TipJar) (t : Tip) :
    (record_tip jar t).total_tips_count = jar.total_tips_count := by
  unfold record_tip; split <;> rfl

theorem record_tip_length_le (jar : TipJar) (t : Tip)
    (h : jar.tips_history.length ≤ TipJar.MAX_TIP_HISTORY_LEN) :
    (record_tip jar t).tips_history.length ≤ TipJar.MAX_TIP_HISTORY_LEN := by
  unfold record_tip
  split
  · simpa using by omega
  · simpa using h

/-- The exact success outcome of `send_tip` on an active jar that passes the
privacy gate, with a succeeding transfer. -/
theorem send_tip_active_eq (jar : TipJar) (sender amount : Nat) (vis : Visibility)
    (memo : String) (ts : Nat)
    (hact : jar.is_active = true)
    (hg : ¬ (jar.is_private ∧ sender ≠ jar.owner))
    (hamt : 0 < amount) (hmemo : memo.utf8ByteSize ≤ 100) :
    send_tip jar sender amount vis memo ts true =
      .ok ({ record_tip jar ⟨sender, amount, vis, memo, ts⟩ with
              total_tips_count := (jar.total_tips_count + 1) % U32
              total_received := (jar.total_received + amount) % U64 },
           [.transferToJar sender amount, .tipSent sender amount memo vis] ++
           (if jar.goal ≤ (jar.total_received + amount) % U64 then
              [.goalReached jar.goal ((jar.total_received + amount) % U64)] else [])) := by
  simp only [send_tip, hact, hamt, hmemo, hg]
  simp [record_tip_total_tips_count, record_tip_total_received, record_tip_goal,
    hamt, hmemo, hg]

/-- A jar used as a concrete input below: active, owner `7`, goal `1000`,
zero aggregates — the account `initialize_tipjar 7 "d" "c" 1000 3` creates. -/
def goalJar : TipJar :=
  { zeroJar with description := "d", category := "c", goal := 1000
                 is_active := true, owner := 7, bump := 3 }

/-- State of `goalJar` after one accepted 500-lamport tip. -/
def jar500 : TipJar :=
  { goalJar with tips_history := [⟨5, 500, .Public, "", 0⟩]
                 total_tips_count := 1, total_received := 500 }

/-- A paused jar used as a concrete input below. -/
def pausedJar : TipJar :=
  { zeroJar with description := "d", category := "c", goal := 50, owner := 7 }

/-- An active private jar used as a concrete input below. -/
def privateJar : TipJar :=
  { zeroJar with is_active := true, is_private := true, owner := 7, goal := 50 }

/-- A jar holding one recorded tip, used as a concrete input below. -/
def oneTipJar : TipJar :=
  { zeroJar with tips_history := [⟨1, 2, .Public, "", 0⟩] }

/-- C3: on an active jar, when a `send_tip` call that passed validation and the
privacy gate hits a failing external transfer, the platform error is propagated
to the caller and — under the roll-back-on-error transaction semantics of the hosting platform — the persisted record keeps all its pre-call field values. -/
theorem sendTip_transfer_failure_propagates (jar : TipJar) (sender amount : Nat)
    (vis : Visibility) (memo : String) (ts : Nat)
    (hact : jar.is_active = true)
    (hg : ¬ (jar.is_private ∧ sender ≠ jar.owner))
    (hamt : 0 < amount) (hmemo : memo.utf8ByteSize ≤ 100) :
    send_tip jar sender amount vis memo ts false = .error .transferError ∧
    persist jar (send_tip jar sender amount vis memo ts false) = jar := by
  have h : send_tip jar sender amount vis memo ts false = .error .transferError := by
    simp [send_tip, hact, hamt, hmemo, hg]
  exact ⟨h, by rw [h]; rfl⟩

theorem sendTip_transfer_failure_propagates_witness :
    ((0:Nat) < 5 ∧ ("hi".utf8ByteSize ≤ 100)) ∧
    send_tip privateJar 7 5 .Public "hi" 11 false = .error .transferError ∧
    persist privateJar (send_tip privateJar 7 5 .Public "hi" 11 false) = privateJar :=
  ⟨⟨by decide, by decide⟩,
   sendTip_transfer_failure_propagates privateJar 7 5 .Public "hi" 11
     (by decide) (by decide) (by decide) (by decide)⟩

/-- C4: a `send_tip` with positive amount and in-bound memo against a paused
jar returns success, emits exactly one refund notification carrying the same
amount, invokes no value transfer, and leaves the record — in particular
`total_received`, `total_tips_count`, `tips_history`, `last_tip_index` —
unchanged. -/
theorem sendTip_paused_refund (jar : TipJar) (sender amount : Nat) (vis : Visibility)
    (memo : String) (ts : Nat) (tOk : Bool)
    (hact : jar.is_active = false)
    (hamt : 0 < amount) (hmemo : memo.utf8ByteSize ≤ 100) :
    send_tip jar sender amount vis memo ts tOk
      = .ok (jar, [.tipRefunded sender amount ts]) := by
  simp [send_tip, hact, hamt, hmemo]

theorem sendTip_paused_refund_witness :
    ((0:Nat) < 5 ∧ ("hi".utf8ByteSize ≤ 100) ∧ pausedJar.is_active = false) ∧
    send_tip pausedJar 3 5 .Public "hi" 11 true
      = .ok (pausedJar, [.tipRefunded 3 5 11]) :=
  ⟨⟨by decide, by decide, by decide⟩,
   sendTip_paused_refund pausedJar 3 5 .Public "hi" 11 true
     (by decide) (by decide) (by decide)⟩

/-- C5: on an active private jar, a valid `send_tip` from a caller other than
the owner fails with `Unauthorized` leaving the persisted record unchanged,
while the same call from the owner passes the privacy gate and proceeds (with a
succeeding transfer it returns success with `total_tips_count` incremented). -/
theorem sendTip_private_gate (jar : TipJar) (sender amount : Nat) (vis : Visibility)
    (memo : String) (ts : Nat) (tOk : Bool)
    (hact : jar.is_active = true) (hpriv : jar.is_private = true)
    (hamt : 0 < amount) (hmemo : memo.utf8ByteSize ≤ 100) :
    (sender ≠ jar.owner →
      send_tip jar sender amount vis memo ts tOk = .error (.jarError .Unauthorized) ∧
      persist jar (send_tip jar sender amount vis memo ts tOk) = jar) ∧
    (sender = jar.owner → ∃ jar2 effs,
      send_tip jar sender amount vis memo ts true = .ok (jar2, effs) ∧
      jar2.total_tips_count = (jar.total_tips_count + 1) % U32) := by
  constructor
  · intro hne
    have h : send_tip jar sender amount vis memo ts tOk
        = .error (.jarError .Unauthorized) := by
      simp [send_tip, hact, hpriv, hamt, hmemo, hne]
    exact ⟨h, by rw [h]; rfl⟩
  · intro heq
    refine ⟨_, _, send_tip_active_eq jar sender amount vis memo ts hact
      (by simp [heq]) hamt hmemo, rfl⟩

theorem sendTip_private_gate_witness :
    ((3:Nat) ≠ privateJar.owner ∧ (7:Nat) = privateJar.owner ∧
      privateJar.is_active = true ∧ privateJar.is_private = true) ∧
    (send_tip privateJar 3 5 .Public "hi" 11 true = .error (.jarError .Unauthorized) ∧
      persist privateJar (send_tip privateJar 3 5 .Public "hi" 11 true) = privateJar) ∧
    (∃ jar2 effs, send_tip privateJar 7 5 .Public "hi" 11 true = .ok (jar2, effs) ∧
      jar2.total_tips_count = (privateJar.total_tips_count + 1) % U32) :=
  ⟨⟨by decide, by decide, by decide, by decide⟩,
   (sendTip_private_gate privateJar 3 5 .Public "hi" 11 true
     (by decide) (by decide) (by decide) (by decide)).1 (by decide),
   (sendTip_private_gate privateJar 7 5 .Public "hi" 11 true
     (by decide) (by decide) (by decide) (by decide)).2 (by decide)⟩

/-- C6: for a withdrawal by the owner: `amount > total_received` fails with
`InsufficientFunds`; otherwise `amount > 1000` (the fixed per-call
`withdraw_limit`) fails with `WithdrawalLimitExceeded` even though funds are
sufficient; otherwise, when the external transfer succeeds, exactly `amount`
is transferred to the owner and `total_received` is decremented by exactly
`amount`, all other fields unchanged. -/
theorem withdraw_tip_cases (jar : TipJar) (amount : Nat) (tOk : Bool) :
    (jar.total_received < amount →
      withdraw_tip jar jar.owner amount tOk = .error (.jarError .InsufficientFunds)) ∧
    (amount ≤ jar.total_received → 1000 < amount →
      withdraw_tip jar jar.owner amount tOk
        = .error (.jarError .WithdrawalLimitExceeded)) ∧
    (amount ≤ jar.total_received → amount ≤ 1000 →
      withdraw_tip jar jar.owner amount true
        = .ok ({ jar with total_received := jar.total_received - amount },
               [.transferToOwner amount])) := by
  refine ⟨fun hlt => ?_, fun hle hgt => ?_, fun hle hlim => ?_⟩
  · have h1 : ¬ jar.total_received ≥ amount := by omega
    simp [withdraw_tip, h1]
  · have h2 : ¬ amount ≤ 1000 := by omega
    simp [withdraw_tip, hle, h2]
  · simp [withdraw_tip, hle, hlim]

theorem withdraw_tip_cases_witness :
    (oneTipJar.total_received < 3 ∧
      (1200:Nat) ≤ ({ jar500 with total_received := 1200 }).total_received ∧
      (1000:Nat) < 1200 ∧ (400:Nat) ≤ jar500.total_received ∧ (400:Nat) ≤ 1000) ∧
    withdraw_tip oneTipJar oneTipJar.owner 3 true
      = .error (.jarError .InsufficientFunds) ∧
    withdraw_tip { jar500 with total_received := 1200 } jar500.owner 1200 true
      = .error (.jarError .WithdrawalLimitExceeded) ∧
    withdraw_tip jar500 jar500.owner 400 true
      = .ok ({ jar500 with total_received := 100 }, [.transferToOwner 400]) :=
  ⟨⟨by decide, by decide, by decide, by decide, by decide⟩,
   (withdraw_tip_cases oneTipJar 3 true).1 (by decide),
   (withdraw_tip_cases { jar500 with total_received := 1200 } 1200 true).2.1
     (by decide) (by decide),
   (withdraw_tip_cases jar500 400 true).2.2 (by decide) (by decide)⟩

/-- C7: an owner toggle always succeeds and flips `is_active` (the assignment
`new_status = !is_active` in the code makes the `RedundantStatusChange` guard against
`is_active == new_status` vacuous, so a no-op flip can never occur and every
no-op flip is — vacuously — rejected); the only error a toggle can raise is
`Unauthorized`, never `RedundantStatusChange`; two consecutive owner toggles
both succeed and return `is_active` to its original value. -/
theorem toggle_status_flips (jar : TipJar) :
    toggle_tipjar_status jar jar.owner
      = .ok ({ jar with is_active := ! jar.is_active },
             [.statusChanged (! jar.is_active)]) ∧
    (stepOp (stepOp jar (.toggleStatus jar.owner)) (.toggleStatus jar.owner)).is_active
      = jar.is_active ∧
    (∀ caller e, toggle_tipjar_status jar caller = .error e →
      e = .jarError .Unauthorized) := by
  refine ⟨?_, ?_, ?_⟩
  · cases h : jar.is_active <;> simp [toggle_tipjar_status, h]
  · cases h : jar.is_active <;>
      simp [stepOp, persist, toggle_tipjar_status, h]
  · intro caller e
    unfold toggle_tipjar_status
    split
    · intro h
      exact (Except.error.injEq _ _).mp h |>.symm
    · cases h : jar.is_active <;> simp [h]

theorem toggle_status_flips_witness :
    toggle_tipjar_status goalJar goalJar.owner
      = .ok ({ goalJar with is_active := false }, [.statusChanged false]) ∧
    (stepOp (stepOp goalJar (.toggleStatus goalJar.owner))
        (.toggleStatus goalJar.owner)).is_active = goalJar.is_active ∧
    (toggle_tipjar_status goalJar 3 = .error (.jarError .Unauthorized)) :=
  ⟨by have h := (toggle_status_flips goalJar).1; simpa using h,
   (toggle_status_flips goalJar).2.1,
   by decide⟩

/-- C8: every successful `send_tip` against an active jar emits a goal-reached
notification exactly when the post-credit `total_received` has reached the
goal — the notification is level-triggered, re-firing on every later accepted
tip, not edge-triggered once per crossing. -/
theorem sendTip_goal_refires (jar : TipJar) (sender amount : Nat) (vis : Visibility)
    (memo : String) (ts : Nat)
    (hact : jar.is_active = true)
    (hg : ¬ (jar.is_private ∧ sender ≠ jar.owner))
    (hamt : 0 < amount) (hmemo : memo.utf8ByteSize ≤ 100) :
    ∃ jar3 effs, send_tip jar sender amount vis memo ts true = .ok (jar3, effs) ∧
      jar3.total_received = (jar.total_received + amount) % U64 ∧
      jar3.goal = jar.goal ∧
      ((∃ g r, Effect.goalReached g r ∈ effs) ↔ jar3.goal ≤ jar3.total_received) := by
  refine ⟨_, _, send_tip_active_eq jar sender amount vis memo ts hact hg hamt hmemo,
    rfl, record_tip_goal jar _, ?_⟩
  constructor
  · rintro ⟨g, r, hmem⟩
    by_cases hc : jar.goal ≤ (jar.total_received + amount) % U64
    · simpa [record_tip_goal] using hc
    · simp [hc] at hmem
  · intro hc
    have hc2 : jar.goal ≤ (jar.total_received + amount) % U64 := by
      simpa [record_tip_goal] using hc
    exact ⟨jar.goal, (jar.total_received + amount) % U64, by simp [hc2]⟩

theorem sendTip_goal_refires_witness :
    initialize_tipjar 7 "d" "c" 1000 3 = .ok goalJar ∧
    send_tip goalJar 5 500 .Public "" 0 true
      = .ok (jar500, [.transferToJar 5 500, .tipSent 5 500 "" .Public]) ∧
    (∃ jar3 effs, send_tip jar500 6 600 .Anonymous "" 1 true = .ok (jar3, effs) ∧
      jar3.total_received = (jar500.total_received + 600) % U64 ∧
      jar3.goal = jar500.goal ∧
      ((∃ g r, Effect.goalReached g r ∈ effs) ↔ jar3.goal ≤ jar3.total_received)) ∧
    send_tip jar500 6 600 .Anonymous "" 1 true
      = .ok ({ jar500 with
                tips_history := [⟨5, 500, .Public, "", 0⟩, ⟨6, 600, .Anonymous, "", 1⟩]
                total_tips_count := 2
                total_received := 1100 },
             [.transferToJar 6 600, .tipSent 6 600 "" .Anonymous,
              .goalReached 1000 1100]) :=
  ⟨by decide, by decide,
   sendTip_goal_refires jar500 6 600 .Anonymous "" 1
     (by decide) (by decide) (by decide) (by decide),
   by decide⟩

/-- The claim about `get_tip_history` fails as stated: `page * page_size` is a
`u32` product that wraps modulo `2^32`; at `page = page_size = 65536` on a jar
with one stored tip the start offset wraps to `0` and the call returns that
tip, where the claimed semantics (start offset `2^32` being past the length)
requires the empty sequence. -/
theorem get_tip_history_wrap_cex :
    get_tip_history oneTipJar 65536 65536
      ≠ get_tip_history_spec oneTipJar 65536 65536 ∧
    get_tip_history oneTipJar 65536 65536 = [⟨1, 2, .Public, "", 0⟩] ∧
    get_tip_history_spec oneTipJar 65536 65536 = [] ∧
    65536 * 65536 ≥ oneTipJar.tips_history.length := by
  refine ⟨by decide, by decide, by decide, by decide⟩

/-- C9 (amended): whenever the `u32` product `page * page_size` does not wrap,
`get_tip_history` returns exactly the slice
`[page*page_size, min(page*page_size + page_size, length))` of the history and
the empty sequence when the start offset is at or beyond the current length,
raising no error for out-of-range pages. -/
theorem get_tip_history_no_overflow (jar : TipJar) (page page_size : Nat)
    (h : page * page_size < U32) :
    get_tip_history jar page page_size = get_tip_history_spec jar page page_size := by
  simp only [get_tip_history, get_tip_history_spec, Nat.mod_eq_of_lt h]

theorem get_tip_history_no_overflow_witness :
    (0 * 2 < U32) ∧
    get_tip_history oneTipJar 0 2 = get_tip_history_spec oneTipJar 0 2 :=
  ⟨by decide, get_tip_history_no_overflow oneTipJar 0 2 (by decide)⟩

/-! ## The ring buffer (claim C2) -/

/-- Overwriting the slot at the cursor and rotating by the advanced cursor
drops the oldest element of the previous chronological window and appends the
new one. -/
theorem set_rotate_window (l : List Tip) (c : Nat) (t : Tip)
    (hl : l.length = 100) (hc : c < 100) :
    (l.set c t).rotate ((c + 1) % 100) = (l.rotate c).drop 1 ++ [t] := by
  have hcl : c < l.length := by omega
  have hrot : l.rotate c = l.drop c ++ l.take c :=
    List.rotate_eq_drop_append_take (by omega)
  have hdrop1 : (l.rotate c).drop 1 = l.drop (c + 1) ++ l.take c := by
    rw [hrot, List.drop_append_of_le_length (by simp [hl]; omega),
        List.drop_drop]
  rw [List.set_eq_take_cons_drop t hcl, hdrop1]
  have hlen : (l.take c ++ t :: l.drop (c + 1)).length = 100 := by
    simp [hl]; omega
  rcases Nat.lt_or_ge (c + 1) 100 with h1 | h1
  · rw [Nat.mod_eq_of_lt h1,
        List.rotate_eq_drop_append_take (by rw [hlen]; omega)]
    have hc1 : c + 1 = (l.take c).length + 1 := by simp [hl]; omega
    rw [hc1, List.drop_append, List.take_append, List.drop_succ_cons,
        List.drop_zero, List.take_succ_cons, List.take_zero]
    simp
  · have hc99 : c = 99 := by omega
    subst hc99
    have h100 : l.drop 100 = [] := List.drop_eq_nil_of_le (by omega)
    norm_num
    simp [h100]

theorem drop_succ_append {α : Type} (W X : List α) (n : Nat) (hW : W ≠ []) :
    (W ++ X).drop (n + 1) = (W.drop 1 ++ X).drop n := by
  cases W with
  | nil => cases hW rfl
  | cons w W2 => simp

/-- While the buffer stays below capacity, inserting tips appends them in
order and leaves the cursor untouched. -/
theorem recordAll_fill (ts : List Tip) : ∀ (jar : TipJar),
    jar.tips_history.length + ts.length ≤ TipJar.MAX_TIP_HISTORY_LEN →
    (recordAll jar ts).tips_history = jar.tips_history ++ ts ∧
    (recordAll jar ts).last_tip_index = jar.last_tip_index := by
  induction ts with
  | nil => intro jar h; simp [recordAll]
  | cons t rest ih =>
    intro jar h
    simp only [List.length_cons] at h
    have hlt : jar.tips_history.length < TipJar.MAX_TIP_HISTORY_LEN := by omega
    have hstep : record_tip jar t
        = { jar with tips_history := jar.tips_history ++ [t] } := by
      unfold record_tip; rw [if_pos hlt]
    have hfold : recordAll jar (t :: rest) = recordAll (record_tip jar t) rest := rfl
    rw [hfold, hstep]
    obtain ⟨h1, h2⟩ := ih { jar with tips_history := jar.tips_history ++ [t] }
      (by simp; omega)
    refine ⟨?_, h2⟩
    rw [h1]
    simp

/-- Once the buffer is full it stays full, the cursor advances modulo the
capacity, and the chronological window (buffer rotated to the cursor) is the
suffix of the insertion sequence: the oldest entries are overwritten in
insertion order. -/
theorem recordAll_wrap (ts : List Tip) : ∀ (jar : TipJar),
    jar.tips_history.length = 100 → jar.last_tip_index < 100 →
    (recordAll jar ts).tips_history.length = 100 ∧
    (recordAll jar ts).last_tip_index = (jar.last_tip_index + ts.length) % 100 ∧
    (recordAll jar ts).tips_history.rotate ((recordAll jar ts).last_tip_index)
      = (jar.tips_history.rotate jar.last_tip_index ++ ts).drop ts.length := by
  induction ts with
  | nil =>
    intro jar h1 h2
    refine ⟨h1, ?_, ?_⟩
    · simp [recordAll, Nat.mod_eq_of_lt h2]
    · simp [recordAll]
  | cons t rest ih =>
    intro jar h1 h2
    have hnotlt : ¬ jar.tips_history.length < TipJar.MAX_TIP_HISTORY_LEN := by
      simp [TipJar.MAX_TIP_HISTORY_LEN]; omega
    have hstep : record_tip jar t
        = { jar with
              tips_history := jar.tips_history.set jar.last_tip_index t
              last_tip_index := (jar.last_tip_index + 1) % 100 } := by
      unfold record_tip
      rw [if_neg hnotlt]
      simp [TipJar.MAX_TIP_HISTORY_LEN, Nat.mod_eq_of_lt h2]
    have hfold : recordAll jar (t :: rest) = recordAll (record_tip jar t) rest := rfl
    rw [hfold, hstep]
    obtain ⟨g1, g2, g3⟩ := ih
      { jar with
          tips_history := jar.tips_history.set jar.last_tip_index t
          last_tip_index := (jar.last_tip_index + 1) % 100 }
      (by simp [h1]) (by simp; exact Nat.mod_lt _ (by omega))
    refine ⟨g1, ?_, ?_⟩
    · rw [g2]
      simp only [List.length_cons]
      rw [Nat.mod_add_mod]
      congr 1
      omega
    · rw [g3]
      simp only
      rw [set_rotate_window jar.tips_history jar.last_tip_index t h1 h2]
      have hWne : jar.tips_history.rotate jar.last_tip_index ≠ [] := by
        have : (jar.tips_history.rotate jar.last_tip_index).length = 100 := by
          simp [List.length_rotate, h1]
        intro hnil
        rw [hnil] at this
        simp at this
      rw [List.length_cons,
          drop_succ_append _ _ rest.length hWne]
      congr 1
      simp

/-- Inserting `MAX_TIP_HISTORY_LEN + k` tips into an empty history leaves
exactly `100` entries, a cursor of `k % 100`, and — rotated to the cursor —
the last `100` tips of the insertion sequence: the oldest `k` tips have been
overwritten in insertion order. -/
theorem recordAll_ring (jar : TipJar) (ts : List Tip) (k : Nat)
    (hh : jar.tips_history = []) (hc : jar.last_tip_index = 0)
    (hlen : ts.length = TipJar.MAX_TIP_HISTORY_LEN + k) :
    (recordAll jar ts).tips_history.length = 100 ∧
    (recordAll jar ts).last_tip_index = k % 100 ∧
    (recordAll jar ts).tips_history.rotate (k % 100) = ts.drop k := by
  have hmax : TipJar.MAX_TIP_HISTORY_LEN = 100 := rfl
  rw [hmax] at hlen
  have hfold : recordAll jar ts
      = recordAll (recordAll jar (ts.take 100)) (ts.drop 100) := by
    conv_lhs => rw [← List.take_append_drop 100 ts]
    simp only [recordAll, List.foldl_append]
  obtain ⟨f1, f2⟩ := recordAll_fill (ts.take 100) jar
    (by simp [hh, hmax])
  rw [hh] at f1
  simp only [List.nil_append] at f1
  have h100 : (recordAll jar (ts.take 100)).tips_history.length = 100 := by
    rw [f1]; simp; omega
  have hcur : (recordAll jar (ts.take 100)).last_tip_index = 0 := by
    rw [f2, hc]
  obtain ⟨w1, w2, w3⟩ := recordAll_wrap (ts.drop 100) (recordAll jar (ts.take 100))
    h100 (by rw [hcur]; omega)
  have hdlen : (ts.drop 100).length = k := by simp [hlen]
  rw [hdlen, hcur] at w2
  simp only [Nat.zero_add] at w2
  rw [hfold]
  refine ⟨w1, w2, ?_⟩
  rw [← w2, w3, hcur, List.rotate_zero, f1, hdlen, List.take_append_drop]

/-- C2: recording below capacity appends without touching `last_tip_index`;
recording at capacity (with the cursor in range, as it always is for reachable
jars) overwrites the slot at `last_tip_index` and advances the cursor by one
modulo 100; the history length never exceeds 100; and inserting `100 + k`
tips (k > 0) into an empty history leaves exactly 100 entries whose rotation
by the cursor `k % 100` is the last 100 tips in insertion order — the oldest
`k` tips overwritten in insertion order. -/
theorem ring_buffer_claim :
    (∀ (jar : TipJar) (t : Tip),
      jar.tips_history.length < TipJar.MAX_TIP_HISTORY_LEN →
      record_tip jar t = { jar with tips_history := jar.tips_history ++ [t] }) ∧
    (∀ (jar : TipJar) (t : Tip),
      jar.tips_history.length = TipJar.MAX_TIP_HISTORY_LEN →
      jar.last_tip_index < TipJar.MAX_TIP_HISTORY_LEN →
      record_tip jar t = { jar with
        tips_history := jar.tips_history.set jar.last_tip_index t
        last_tip_index := (jar.last_tip_index + 1) % TipJar.MAX_TIP_HISTORY_LEN }) ∧
    (∀ (jar : TipJar) (t : Tip),
      jar.tips_history.length ≤ TipJar.MAX_TIP_HISTORY_LEN →
      (record_tip jar t).tips_history.length ≤ TipJar.MAX_TIP_HISTORY_LEN) ∧
    (∀ (jar : TipJar) (ts : List Tip) (k : Nat),
      jar.tips_history = [] → jar.last_tip_index = 0 →
      ts.length = TipJar.MAX_TIP_HISTORY_LEN + k → 0 < k →
      (recordAll jar ts).tips_history.length = 100 ∧
      (recordAll jar ts).last_tip_index = k % 100 ∧
      (recordAll jar ts).tips_history.rotate (k % 100) = ts.drop k) := by
  refine ⟨?_, ?_, record_tip_length_le, ?_⟩
  · intro jar t h
    unfold record_tip
    rw [if_pos h]
  · intro jar t h hcur
    unfold record_tip
    rw [if_neg (by omega)]
    have hmod : jar.last_tip_index % TipJar.MAX_TIP_HISTORY_LEN = jar.last_tip_index :=
      Nat.mod_eq_of_lt hcur
    rw [hmod]
  · intro jar ts k hh hc hlen _
    exact recordAll_ring jar ts k hh hc hlen

/-- A tip value used for the concrete ring-buffer witness. -/
def tip0 : Tip := ⟨0, 1, .Public, "", 0⟩

/-- A jar whose ring buffer is exactly at capacity, cursor at 3. -/
def fullJar : TipJar :=
  { zeroJar with tips_history := List.replicate 100 ⟨9, 2, .Anonymous, "m", 5⟩
                 last_tip_index := 3 }

theorem ring_buffer_claim_witness :
    (oneTipJar.tips_history.length < TipJar.MAX_TIP_HISTORY_LEN ∧
      fullJar.tips_history.length = TipJar.MAX_TIP_HISTORY_LEN ∧
      fullJar.last_tip_index < TipJar.MAX_TIP_HISTORY_LEN ∧
      (List.replicate 101 tip0).length = TipJar.MAX_TIP_HISTORY_LEN + 1) ∧
    record_tip oneTipJar tip0
      = { oneTipJar with tips_history := oneTipJar.tips_history ++ [tip0] } ∧
    record_tip fullJar tip0
      = { fullJar with
            tips_history := fullJar.tips_history.set fullJar.last_tip_index tip0
            last_tip_index := (fullJar.last_tip_index + 1) % TipJar.MAX_TIP_HISTORY_LEN } ∧
    (record_tip fullJar tip0).tips_history.length ≤ TipJar.MAX_TIP_HISTORY_LEN ∧
    ((recordAll zeroJar (List.replicate 101 tip0)).tips_history.length = 100 ∧
      (recordAll zeroJar (List.replicate 101 tip0)).last_tip_index = 1 % 100 ∧
      (recordAll zeroJar (List.replicate 101 tip0)).tips_history.rotate (1 % 100)
        = (List.replicate 101 tip0).drop 1) :=
  ⟨⟨by decide, by decide, by decide, by decide⟩,
   ring_buffer_claim.1 oneTipJar tip0 (by decide),
   ring_buffer_claim.2.1 fullJar tip0 (by decide) (by decide),
   ring_buffer_claim.2.2.1 fullJar tip0 (by decide),
   ring_buffer_claim.2.2.2 zeroJar (List.replicate 101 tip0) 1 (by decide)
     (by decide) (by decide) (by decide)⟩

theorem send_tip_shape (jar : TipJar) (s a : Nat) (v : Visibility) (m : String)
    (ts : Nat) (tOk : Bool) :
    (∃ e, send_tip jar s a v m ts tOk = .error e) ∨
    (jar.is_active = false ∧ ∃ effs, send_tip jar s a v m ts tOk = .ok (jar, effs)) ∨
    (jar.is_active = true ∧ ∃ effs, send_tip jar s a v m ts tOk =
        .ok ({ record_tip jar ⟨s, a, v, m, ts⟩ with
                total_tips_count := (jar.total_tips_count + 1) % U32
                total_received := (jar.total_received + a) % U64 }, effs)) := by
  by_cases h1 : 0 < a
  case neg => exact .inl ⟨.jarError .InvalidAmount, by simp [send_tip, h1]⟩
  by_cases h2 : m.utf8ByteSize ≤ 100
  case neg => exact .inl ⟨.jarError .MemoTooLong, by simp [send_tip, h1, h2]⟩
  cases hact : jar.is_active with
  | false =>
    exact .inr (.inl ⟨rfl, [.tipRefunded s a ts], by simp [send_tip, h1, h2, hact]⟩)
  | true =>
    by_cases hgate : jar.is_private = true ∧ s ≠ jar.owner
    case pos =>
      exact .inl ⟨.jarError .Unauthorized, by simp [send_tip, h1, h2, hact, hgate]⟩
    cases tOk with
    | false =>
      exact .inl ⟨.transferError, by simp [send_tip, h1, h2, hact, hgate]⟩
    | true =>
      exact .inr (.inr ⟨rfl, _, send_tip_active_eq jar s a v m ts hact hgate h1 h2⟩)

theorem withdraw_tip_shape (jar : TipJar) (c a : Nat) (tOk : Bool) :
    (∃ e, withdraw_tip jar c a tOk = .error e) ∨
    (a ≤ jar.total_received ∧ withdraw_tip jar c a tOk =
        .ok ({ jar with total_received := jar.total_received - a },
             [.transferToOwner a])) := by
  unfold withdraw_tip
  dsimp only
  split_ifs with h1 h2 h3 h4 <;>
    first
    | exact .inl ⟨_, rfl⟩
    | exact .inr ⟨by omega, rfl⟩

theorem stepOp_totals (jar : TipJar) (op : Op)
    (hcnt : jar.total_tips_count < U32) (hrec : jar.total_received < U64) :
    (stepOp jar op).total_tips_count
        = (jar.total_tips_count + (opAccepted jar op).length) % U32 ∧
    (stepOp jar op).total_received + (opWithdrawn jar op).sum
        = (jar.total_received + (opAccepted jar op).sum) % U64 := by
  cases op with
  | sendTip s a v m ts tOk =>
    rcases send_tip_shape jar s a v m ts tOk with ⟨e, he⟩ | ⟨hact, effs, he⟩ | ⟨hact, effs, he⟩
    · simp [stepOp, persist, opAccepted, opWithdrawn, he,
        Nat.mod_eq_of_lt hcnt, Nat.mod_eq_of_lt hrec]
    · simp [stepOp, persist, opAccepted, opWithdrawn, he, hact,
        Nat.mod_eq_of_lt hcnt, Nat.mod_eq_of_lt hrec]
    · simp [stepOp, persist, opAccepted, opWithdrawn, he, hact,
        record_tip_total_tips_count, record_tip_total_received]
  | withdraw c a tOk =>
    rcases withdraw_tip_shape jar c a tOk with ⟨e, he⟩ | ⟨hle, he⟩
    · simp [stepOp, persist, opAccepted, opWithdrawn, he,
        Nat.mod_eq_of_lt hcnt, Nat.mod_eq_of_lt hrec]
    · simp [stepOp, persist, opAccepted, opWithdrawn, he,
        Nat.mod_eq_of_lt hcnt, Nat.mod_eq_of_lt hrec]
      omega
  | clearHistory c =>
    simp only [stepOp, opAccepted, opWithdrawn]
    unfold clear_tip_history
    split_ifs <;>
      simp [persist, Nat.mod_eq_of_lt hcnt, Nat.mod_eq_of_lt hrec]
  | toggleStatus c =>
    simp only [stepOp, opAccepted, opWithdrawn]
    unfold toggle_tipjar_status
    split_ifs <;>
      simp [persist, Nat.mod_eq_of_lt hcnt, Nat.mod_eq_of_lt hrec]
  | doPause c =>
    simp only [stepOp, opAccepted, opWithdrawn]
    unfold pause_tipjar
    split_ifs <;>
      simp [persist, Nat.mod_eq_of_lt hcnt, Nat.mod_eq_of_lt hrec]
  | doResume c =>
    simp only [stepOp, opAccepted, opWithdrawn]
    unfold resume_tipjar
    split_ifs <;>
      simp [persist, Nat.mod_eq_of_lt hcnt, Nat.mod_eq_of_lt hrec]
  | doUpdate c d cat g =>
    simp only [stepOp, opAccepted, opWithdrawn]
    unfold update_tipjar
    split_ifs <;>
      simp [persist, Nat.mod_eq_of_lt hcnt, Nat.mod_eq_of_lt hrec]

theorem runOps_totals (ops : List Op) : ∀ (jar : TipJar),
    jar.total_tips_count + (acceptedList jar ops).length < U32 →
    jar.total_received + (acceptedList jar ops).sum < U64 →
    (runOps jar ops).total_tips_count
        = jar.total_tips_count + (acceptedList jar ops).length ∧
    (runOps jar ops).total_received + (withdrawnList jar ops).sum
        = jar.total_received + (acceptedList jar ops).sum := by
  induction ops with
  | nil =>
    intro jar h1 h2
    simp [runOps, acceptedList, withdrawnList]
  | cons op rest ih =>
    intro jar h1 h2
    simp only [acceptedList, List.length_append, List.sum_append] at h1 h2 ⊢
    simp only [withdrawnList, List.sum_append]
    have hcnt : jar.total_tips_count < U32 := by omega
    have hrec : jar.total_received < U64 := by omega
    obtain ⟨s1, s2⟩ := stepOp_totals jar op hcnt hrec
    have hc1 : (stepOp jar op).total_tips_count
        = jar.total_tips_count + (opAccepted jar op).length := by
      rw [s1, Nat.mod_eq_of_lt (by omega)]
    have hr1 : (stepOp jar op).total_received + (opWithdrawn jar op).sum
        = jar.total_received + (opAccepted jar op).sum := by
      rw [s2, Nat.mod_eq_of_lt (by omega)]
    have hrun : runOps jar (op :: rest) = runOps (stepOp jar op) rest := rfl
    obtain ⟨i1, i2⟩ := ih (stepOp jar op) (by omega) (by omega)
    constructor
    · rw [hrun, i1]
      omega
    · rw [hrun]
      omega

theorem initialize_ok_fields (user : Nat) (d c : String) (g bump : Nat)
    (jar0 : TipJar) (h : initialize_tipjar user d c g bump = .ok jar0) :
    jar0.is_private = false ∧ jar0.total_received = 0 ∧
    jar0.total_tips_count = 0 ∧ jar0.is_active = true ∧ jar0.owner = user ∧
    jar0.goal = g ∧ jar0.tips_history = [] ∧ jar0.last_tip_index = 0 := by
  unfold initialize_tipjar at h
  split_ifs at h
  injection h with h
  subst h
  simp [zeroJar]

/-- C1: from a freshly initialized jar, over any trace of instructions
(tips, withdrawals, history clears, toggles, pauses, resumes, metadata
updates), `total_tips_count` equals the number of accepted tips — it is never
decremented and `clear_tip_history` leaves it untouched — and `total_received`
plus everything withdrawn equals the sum of all accepted tip amounts, provided
the `u32` tip counter and the `u64` balance do not overflow. -/
theorem totals_claim (user : Nat) (d c : String) (g bump : Nat) (jar0 : TipJar)
    (hinit : initialize_tipjar user d c g bump = .ok jar0) (ops : List Op)
    (hN : (acceptedList jar0 ops).length < U32)
    (hSum : (acceptedList jar0 ops).sum < U64) :
    (runOps jar0 ops).total_tips_count = (acceptedList jar0 ops).length ∧
    (runOps jar0 ops).total_received + (withdrawnList jar0 ops).sum
      = (acceptedList jar0 ops).sum := by
  obtain ⟨_, hrec0, hcnt0, _⟩ := initialize_ok_fields user d c g bump jar0 hinit
  obtain ⟨h1, h2⟩ := runOps_totals ops jar0 (by omega) (by omega)
  rw [hrec0] at h2
  rw [hcnt0] at h1
  exact ⟨by omega, by omega⟩

theorem stepOp_is_private (jar : TipJar) (op : Op) :
    (stepOp jar op).is_private = jar.is_private := by
  cases op with
  | sendTip s a v m ts tOk =>
    rcases send_tip_shape jar s a v m ts tOk with ⟨e, he⟩ | ⟨hact, effs, he⟩ | ⟨hact, effs, he⟩ <;>
      simp [stepOp, persist, he, record_tip_is_private]
  | withdraw c a tOk =>
    rcases withdraw_tip_shape jar c a tOk with ⟨e, he⟩ | ⟨hle, he⟩ <;>
      simp [stepOp, persist, he]
  | clearHistory c =>
    simp only [stepOp]
    unfold clear_tip_history
    split_ifs <;> simp [persist]
  | toggleStatus c =>
    simp only [stepOp]
    unfold toggle_tipjar_status
    split_ifs <;> simp [persist]
  | doPause c =>
    simp only [stepOp]
    unfold pause_tipjar
    split_ifs <;> simp [persist]
  | doResume c =>
    simp only [stepOp]
    unfold resume_tipjar
    split_ifs <;> simp [persist]
  | doUpdate c d cat g =>
    simp only [stepOp]
    unfold update_tipjar
    split_ifs <;> simp [persist]

theorem runOps_is_private (ops : List Op) : ∀ (jar : TipJar),
    (runOps jar ops).is_private = jar.is_private := by
  induction ops with
  | nil => intro jar; rfl
  | cons op rest ih =>
    intro jar
    have hrun : runOps jar (op :: rest) = runOps (stepOp jar op) rest := rfl
    rw [hrun, ih (stepOp jar op), stepOp_is_private]

theorem send_tip_no_unauthorized (jar : TipJar) (hp : jar.is_private = false)
    (sender amount : Nat) (vis : Visibility) (memo : String) (ts : Nat) (tOk : Bool) :
    send_tip jar sender amount vis memo ts tOk ≠ .error (.jarError .Unauthorized) := by
  unfold send_tip
  split_ifs <;> simp_all

/-- C10: `initialize_tipjar` leaves `is_private` at its zero-initialised
`false` and no instruction ever assigns it, so every state reachable from a
freshly initialized jar has `is_private = false` and the privacy-gate
`Unauthorized` branch of `send_tip` can never be taken. -/
theorem is_private_unreachable (user : Nat) (d c : String) (g bump : Nat)
    (jar0 : TipJar) (hinit : initialize_tipjar user d c g bump = .ok jar0)
    (ops : List Op) :
    jar0.is_private = false ∧
    (runOps jar0 ops).is_private = false ∧
    ∀ (sender amount : Nat) (vis : Visibility) (memo : String) (ts : Nat) (tOk : Bool),
      send_tip (runOps jar0 ops) sender amount vis memo ts tOk
        ≠ .error (.jarError .Unauthorized) := by
  obtain ⟨hp, _⟩ := initialize_ok_fields user d c g bump jar0 hinit
  have h2 : (runOps jar0 ops).is_private = false := by
    rw [runOps_is_private]; exact hp
  exact ⟨hp, h2, fun sender amount vis memo ts tOk =>
    send_tip_no_unauthorized _ h2 sender amount vis memo ts tOk⟩

def demoOps : List Op :=
  [.sendTip 5 10 .Public "" 0 true, .withdraw 7 3 true, .clearHistory 7,
   .toggleStatus 7, .sendTip 6 4 .Public "x" 1 true, .doResume 7,
   .sendTip 6 4 .Public "x" 2 true]

theorem totals_claim_witness :
    (initialize_tipjar 7 "d" "c" 1000 3 = .ok goalJar ∧
      (acceptedList goalJar demoOps).length < U32 ∧
      (acceptedList goalJar demoOps).sum < U64) ∧
    ((runOps goalJar demoOps).total_tips_count = (acceptedList goalJar demoOps).length ∧
      (runOps goalJar demoOps).total_received + (withdrawnList goalJar demoOps).sum
        = (acceptedList goalJar demoOps).sum) ∧
    (acceptedList goalJar demoOps = [10, 4] ∧
      withdrawnList goalJar demoOps = [3] ∧
      (runOps goalJar demoOps).total_tips_count = 2 ∧
      (runOps goalJar demoOps).total_received = 11) :=
  ⟨⟨by decide, by decide, by decide⟩,
   totals_claim 7 "d" "c" 1000 3 goalJar (by decide) demoOps (by decide) (by decide),
   by decide⟩

theorem is_private_unreachable_witness :
    initialize_tipjar 7 "d" "c" 1000 3 = .ok goalJar ∧
    goalJar.is_private = false ∧
    (runOps goalJar demoOps).is_private = false ∧
    send_tip (runOps goalJar demoOps) 99 5 .Public "" 0 true
      ≠ .error (.jarError .Unauthorized) :=
  ⟨by decide,
   (is_private_unreachable 7 "d" "c" 1000 3 goalJar (by decide) demoOps).1,
   (is_private_unreachable 7 "d" "c" 1000 3 goalJar (by decide) demoOps).2.1,
   (is_private_unreachable 7 "d" "c" 1000 3 goalJar (by decide) demoOps).2.2
     99 5 .Public "" 0 true⟩
